import Mathlib

/-!
# Verification of the quota-tracker calculation core

Shallow embedding of `src/utils/timeUtils.ts` (the pure calculators
`calculateQuotaStats` and `calculateWeeklyStats`) of the
`claude-usage-tracker` repository, together with the monthly billing-cycle
calculator described in the design document (whose implementation is not in
the source tree).

Modelling conventions:
* A JavaScript `Date` / instant is a rational number of milliseconds since
  the epoch, in local time with a fixed UTC offset (no DST); all arithmetic
  on dates in the source is plain millisecond arithmetic via `date-fns`
  (`addDays`, `addHours`, `addMilliseconds`, `differenceInMilliseconds`).
* JavaScript numbers are modelled by `ℚ`.  A user-entered numeric field is
  `Option ℚ`: `none` models a value whose `Number(...)` coercion is `NaN`
  (non-numeric text); `some v` models a field that coerces to the number
  `v` (the empty string coerces to `0`, i.e. `some 0`).
* The `resetTime` string is modelled pre-parsed: `some (h, m)` when the
  string is an `HH:mm` time (`parse` of date-fns succeeds exactly when
  `h < 24 ∧ m < 60`), `none` when unparseable.
* JavaScript `x || d` on numbers yields `d` exactly when `x` is `NaN` or
  `0` (`jsNumOr`); `Math.floor` is `Int.floor`; the `%` remainder operator
  truncates toward zero (`jsMod`).
-/

/-- Status enum `'ok' | 'warning' | 'critical'` from `types.ts`. -/
inductive QStatus where
  | ok : QStatus
  | warning : QStatus
  | critical : QStatus
deriving DecidableEq, Repr

/-- The fields of `QuotaState` (types.ts) consumed by the two calculators in
`timeUtils.ts`.  Numeric user inputs are `Option ℚ` (`none` = `NaN` after
`Number(...)`); `resetTime` is the parse of the `HH:mm` string;
`weeklyResetDate` is the parse of the ISO datetime string (`none` = missing
or invalid). -/
structure QuotaState where
  resetTime : Option (ℕ × ℕ)
  percentUsed : Option ℚ
  windowLengthHours : Option ℚ
  weeklyPercentUsed : Option ℚ
  weeklyResetDate : Option ℚ
  weeklyWorkDays : Option ℚ
deriving DecidableEq

/-- `CalculationResult` from `types.ts`: the result record of
`calculateQuotaStats`. -/
structure CalculationResult where
  windowStart : ℚ
  windowEnd : ℚ
  elapsedMs : ℚ
  ratePerHour : ℚ
  safeRatePerHour : ℚ
  forecastPercent : ℚ
  remainingPercent : ℚ
  estimatedFinishDate : Option ℚ
  timeProgressPercent : ℚ
  status : QStatus
  isWindowActive : Bool
deriving DecidableEq

/-- `WeeklyCalculationResult` from `types.ts`: the result record of
`calculateWeeklyStats`.  `daysRemaining`/`hoursRemaining` are produced by
`Math.floor`, hence integers. -/
structure WeeklyCalculationResult where
  startDate : ℚ
  resetDate : ℚ
  percentUsed : ℚ
  timeProgressPercent : ℚ
  benchmarkPercent : ℚ
  status : QStatus
  daysRemaining : ℤ
  hoursRemaining : ℤ
  currentDailyPace : ℚ
  maxSafeDailyPace : ℚ
  workDays : ℚ
deriving DecidableEq

/-- JavaScript `Number(x) || d`: the default `d` is taken exactly when the
coercion of `x` is `NaN` (modelled `none`) or `0` (both are falsy). -/
def jsNumOr (x : Option ℚ) (d : ℚ) : ℚ :=
  match x with
  | none => d
  | some v => if v = 0 then d else v

/-- JavaScript truncating conversion toward zero (the semantics of the `%`
operator's implied quotient). -/
def jsTrunc (q : ℚ) : ℤ :=
  if 0 ≤ q then ⌊q⌋ else ⌈q⌉

/-- JavaScript `%` on numbers: remainder with the sign of the dividend,
`a % b = a - b * trunc(a / b)`. -/
def jsMod (a b : ℚ) : ℚ :=
  a - b * jsTrunc (a / b)

/-- `startOfDay` of date-fns: midnight (local) of the calendar day of `t`. -/
def dayStart (t : ℚ) : ℚ :=
  ⌊t / (1000 * 60 * 60 * 24)⌋ * (1000 * 60 * 60 * 24)

/-- Lines 33-42 of `timeUtils.ts`: `parse(resetTime, 'HH:mm', now)` followed
by the `isValid` fallback to `startOfDay(now)` and the zeroing of seconds
and milliseconds.  `parse` succeeds exactly for hours `0..23` and minutes
`0..59` and places the time on the calendar day of `now`; seconds and
milliseconds (inherited from the reference date `now`) are then zeroed, so
both paths land on `dayStart now + h hours + m minutes`. -/
def parseResetTime (rt : Option (ℕ × ℕ)) (now : ℚ) : ℚ :=
  match rt with
  | some (h, m) =>
      if h < 24 ∧ m < 60 then
        dayStart now + (h : ℚ) * (1000 * 60 * 60) + (m : ℚ) * (1000 * 60)
      else dayStart now
  | none => dayStart now

/-- Lines 44-47 of `timeUtils.ts`: roll the parsed reset instant one day
forward when it is strictly earlier than `now`. -/
def resetInstant (now : ℚ) (s : QuotaState) : ℚ :=
  let r := parseResetTime s.resetTime now
  if r < now then r + (1000 * 60 * 60 * 24) else r

/-- Line 28: `Number(state.percentUsed) || 0`. -/
def qPercentUsed (s : QuotaState) : ℚ := jsNumOr s.percentUsed 0

/-- Line 29: `Number(state.windowLengthHours) || 1`. -/
def qWindowLengthHours (s : QuotaState) : ℚ := jsNumOr s.windowLengthHours 1

/-- Line 50: `windowStart = addHours(resetDate, -windowLengthHours)`. -/
def windowStartQ (now : ℚ) (s : QuotaState) : ℚ :=
  resetInstant now s - qWindowLengthHours s * (1000 * 60 * 60)

/-- Line 53: `elapsedMs = differenceInMilliseconds(now, windowStart)`. -/
def elapsedMsQ (now : ℚ) (s : QuotaState) : ℚ :=
  now - windowStartQ now s

/-- Line 54: `elapsedHours = elapsedMs / (1000 * 60 * 60)`. -/
def elapsedHoursQ (now : ℚ) (s : QuotaState) : ℚ :=
  elapsedMsQ now s / (1000 * 60 * 60)

/-- Line 60: `ratePerHour = (elapsedHours > 0) ? (percentUsed / elapsedHours) : 0`. -/
def ratePerHourQ (now : ℚ) (s : QuotaState) : ℚ :=
  if 0 < elapsedHoursQ now s then qPercentUsed s / elapsedHoursQ now s else 0

/-- Line 66: `forecastPercent = ratePerHour * windowLengthHours`. -/
def forecastPercentQ (now : ℚ) (s : QuotaState) : ℚ :=
  ratePerHourQ now s * qWindowLengthHours s

/-- Lines 80-82: `timeProgressPercent`, clamped to `[0, 100]`, guarded on
`windowLengthHours > 0`. -/
def timeProgressPercentQ (now : ℚ) (s : QuotaState) : ℚ :=
  if 0 < qWindowLengthHours s then
    min 100 (max 0 (elapsedHoursQ now s / qWindowLengthHours s * 100))
  else 0

/-- Lines 87-98: the base status from the deviation thresholds (before the
forecast override). -/
def statusBaseQ (now : ℚ) (s : QuotaState) : QStatus :=
  let deviation := qPercentUsed s - timeProgressPercentQ now s
  if 10 < deviation then .critical
  else if 0 < deviation then .warning
  else .ok

/-- Line 101: the override `if (forecastPercent > 150) status = 'critical'`. -/
def statusQ (now : ℚ) (s : QuotaState) : QStatus :=
  if 150 < forecastPercentQ now s then .critical else statusBaseQ now s

/-- `calculateQuotaStats` of `timeUtils.ts` (lines 21-116), assembled from
the per-line definitions above. -/
def calculateQuotaStats (now : ℚ) (state : QuotaState) : CalculationResult :=
  { windowStart := windowStartQ now state
    windowEnd := resetInstant now state
    elapsedMs := elapsedMsQ now state
    ratePerHour := ratePerHourQ now state
    safeRatePerHour :=
      if 0 < qWindowLengthHours state then 100 / qWindowLengthHours state else 0
    forecastPercent := forecastPercentQ now state
    remainingPercent := 100 - qPercentUsed state
    estimatedFinishDate :=
      if 0 < ratePerHourQ now state then
        some (windowStartQ now state + 100 / ratePerHourQ now state * (1000 * 60 * 60))
      else none
    timeProgressPercent := timeProgressPercentQ now state
    status := statusQ now state
    isWindowActive := decide (0 ≤ elapsedMsQ now state) }

/-- Line 123: `workDays = Math.max(1, Math.min(7, Number(state.weeklyWorkDays) || 5))`. -/
def workDaysQ (s : QuotaState) : ℚ :=
  max 1 (min 7 (jsNumOr s.weeklyWorkDays 5))

/-- Lines 127-130: the weekly reset date, defaulting to `now + 7 days` when
the string is empty or does not parse to a valid date. -/
def weeklyResetDateQ (now : ℚ) (s : QuotaState) : ℚ :=
  match s.weeklyResetDate with
  | some d => d
  | none => now + 7 * (1000 * 60 * 60 * 24)

/-- Line 133: `startDate = addDays(resetDate, -7)`. -/
def weeklyStartDateQ (now : ℚ) (s : QuotaState) : ℚ :=
  weeklyResetDateQ now s - 7 * (1000 * 60 * 60 * 24)

/-- Line 136: elapsed milliseconds since the weekly window start. -/
def weeklyElapsedMsQ (now : ℚ) (s : QuotaState) : ℚ :=
  now - weeklyStartDateQ now s

/-- Line 137: `elapsedDays = elapsedMs / (1000 * 60 * 60 * 24)`. -/
def elapsedDaysQ (now : ℚ) (s : QuotaState) : ℚ :=
  weeklyElapsedMsQ now s / (1000 * 60 * 60 * 24)

/-- Line 149: `benchmarkPercent = Math.min(100, Math.max(0, elapsedDays * (100 / workDays)))`. -/
def benchmarkPercentQ (now : ℚ) (s : QuotaState) : ℚ :=
  min 100 (max 0 (elapsedDaysQ now s * (100 / workDaysQ s)))

/-- Line 153: `currentDailyPace = (elapsedDays > 0) ? (percentUsed / elapsedDays) : 0`. -/
def currentDailyPaceQ (now : ℚ) (s : QuotaState) : ℚ :=
  if 0 < elapsedDaysQ now s then jsNumOr s.weeklyPercentUsed 0 / elapsedDaysQ now s
  else 0

/-- Lines 160-170: the weekly status thresholds. -/
def weeklyStatusQ (now : ℚ) (s : QuotaState) : QStatus :=
  let deviation := jsNumOr s.weeklyPercentUsed 0 - benchmarkPercentQ now s
  if 15 < deviation then .critical
  else if 5 < deviation then .warning
  else if 100 / workDaysQ s * (12 / 10) < currentDailyPaceQ now s then .warning
  else .ok

/-- `calculateWeeklyStats` of `timeUtils.ts` (lines 118-189). -/
def calculateWeeklyStats (now : ℚ) (state : QuotaState) : WeeklyCalculationResult :=
  { startDate := weeklyStartDateQ now state
    resetDate := weeklyResetDateQ now state
    percentUsed := jsNumOr state.weeklyPercentUsed 0
    timeProgressPercent :=
      if 0 < weeklyResetDateQ now state - weeklyStartDateQ now state then
        min 100 (max 0 (weeklyElapsedMsQ now state /
          (weeklyResetDateQ now state - weeklyStartDateQ now state) * 100))
      else 0
    benchmarkPercent := benchmarkPercentQ now state
    status := weeklyStatusQ now state
    daysRemaining :=
      max 0 ⌊(weeklyResetDateQ now state - now) / (1000 * 60 * 60 * 24)⌋
    hoursRemaining :=
      max 0 ⌊jsMod (weeklyResetDateQ now state - now) (1000 * 60 * 60 * 24) /
        (1000 * 60 * 60)⌋
    currentDailyPace := currentDailyPaceQ now state
    maxSafeDailyPace := 100 / workDaysQ state
    workDays := workDaysQ state }

/-- A calendar date (year, month 1-12, day 1-31). -/
structure SimpleDate where
  y : ℤ
  m : ℕ
  d : ℕ
deriving DecidableEq, Repr

/-- Gregorian leap-year rule. -/
def isLeapYear (y : ℤ) : Bool :=
  (y % 4 == 0 && y % 100 != 0) || y % 400 == 0

/-- Number of days in month `m` of year `y`. -/
def daysInMonth (y : ℤ) (m : ℕ) : ℕ :=
  if m = 2 then (if isLeapYear y then 29 else 28)
  else if m = 4 ∨ m = 6 ∨ m = 9 ∨ m = 11 then 30
  else 31

/-- `dt` names an existing calendar date. -/
def SimpleDate.validDate (dt : SimpleDate) : Prop :=
  1 ≤ dt.m ∧ dt.m ≤ 12 ∧ 1 ≤ dt.d ∧ dt.d ≤ daysInMonth dt.y dt.m

instance (dt : SimpleDate) : Decidable dt.validDate := by
  unfold SimpleDate.validDate; infer_instance

/-- Modelled from the spec: the MonthlyCycleCalculator of design §4.3 is
absent from the source tree (only its result type `MonthlyCalculationResult`
in `types.ts` and the consuming `SubscriptionCard` component are present).
Per the spec, `nextPayment = lastPayment + 1 calendar month` with exact
calendar-month arithmetic (date-fns `addMonths` semantics: advance the
month, clamping the day-of-month to the last valid day of the target
month), not a fixed 30-day span. -/
def monthlyNextBillingDate (lastPayment : SimpleDate) : SimpleDate :=
  let ny := if lastPayment.m = 12 then lastPayment.y + 1 else lastPayment.y
  let nm := if lastPayment.m = 12 then 1 else lastPayment.m + 1
  { y := ny, m := nm, d := min lastPayment.d (daysInMonth ny nm) }

/-! ## Helper lemmas -/

/-- The standard day length in milliseconds is positive. -/
lemma msPerDay_pos : (0 : ℚ) < 1000 * 60 * 60 * 24 := by norm_num

lemma dayStart_le (t : ℚ) : dayStart t ≤ t := by
  unfold dayStart
  have h := Int.floor_le (t / (1000 * 60 * 60 * 24))
  calc (⌊t / (1000 * 60 * 60 * 24)⌋ : ℚ) * (1000 * 60 * 60 * 24)
      ≤ t / (1000 * 60 * 60 * 24) * (1000 * 60 * 60 * 24) := by
        exact mul_le_mul_of_nonneg_right h (by norm_num)
    _ = t := by field_simp

lemma lt_dayStart_add_day (t : ℚ) : t < dayStart t + 1000 * 60 * 60 * 24 := by
  unfold dayStart
  have h := Int.lt_floor_add_one (t / (1000 * 60 * 60 * 24))
  have h2 : t / (1000 * 60 * 60 * 24) * (1000 * 60 * 60 * 24) <
      ((⌊t / (1000 * 60 * 60 * 24)⌋ : ℚ) + 1) * (1000 * 60 * 60 * 24) :=
    mul_lt_mul_of_pos_right h msPerDay_pos
  have h3 : t / (1000 * 60 * 60 * 24) * (1000 * 60 * 60 * 24) = t := by field_simp
  nlinarith [h2, h3]

lemma dayStart_le_parseResetTime (rt : Option (ℕ × ℕ)) (now : ℚ) :
    dayStart now ≤ parseResetTime rt now := by
  unfold parseResetTime
  match rt with
  | some (h, m) =>
      dsimp only
      split
      · have hh : (0 : ℚ) ≤ (h : ℚ) * (1000 * 60 * 60) := by positivity
        have hm : (0 : ℚ) ≤ (m : ℚ) * (1000 * 60) := by positivity
        linarith
      · exact le_refl _
  | none => exact le_refl _

/-- The rolled reset instant never lies before `now`: either the parsed
instant is already at or after `now`, or one day is added and the parsed
instant is at least the start of `now`'s day. -/
lemma now_le_resetInstant (now : ℚ) (s : QuotaState) :
    now ≤ resetInstant now s := by
  unfold resetInstant
  dsimp only
  split
  · have h1 := dayStart_le_parseResetTime s.resetTime now
    have h2 := lt_dayStart_add_day now
    linarith
  · linarith [not_lt.mp (by assumption : ¬ parseResetTime s.resetTime now < now)]

lemma one_le_workDaysQ (s : QuotaState) : 1 ≤ workDaysQ s :=
  le_max_left 1 _

lemma workDaysQ_le_seven (s : QuotaState) : workDaysQ s ≤ 7 := by
  unfold workDaysQ
  exact max_le (by norm_num) (min_le_left _ _)

lemma workDaysQ_pos (s : QuotaState) : 0 < workDaysQ s :=
  lt_of_lt_of_le one_pos (one_le_workDaysQ s)

/-- If the elapsed time of the short window is positive, the (coerced)
window length is positive: the window start precedes `now` only when the
subtracted `windowLengthHours * hour` exceeds `resetInstant - now ≥ 0`. -/
lemma windowLength_pos_of_elapsed_pos (now : ℚ) (s : QuotaState)
    (h : 0 < elapsedMsQ now s) : 0 < qWindowLengthHours s := by
  unfold elapsedMsQ windowStartQ at h
  have hr := now_le_resetInstant now s
  nlinarith

lemma timeProgressPercentQ_nonneg (now : ℚ) (s : QuotaState) :
    0 ≤ timeProgressPercentQ now s := by
  unfold timeProgressPercentQ
  split
  · exact le_min (by norm_num) (le_max_left 0 _)
  · exact le_refl 0

/-! ## Concrete states used in witnesses and counterexamples -/

/-- Scenario-A state: `resetTime="15:00"`, `percentUsed=40`,
`windowLengthHours=5`, weekly fields untouched. -/
def stA : QuotaState :=
  { resetTime := some (15, 0), percentUsed := some 40, windowLengthHours := some 5,
    weeklyPercentUsed := none, weeklyResetDate := none, weeklyWorkDays := none }

lemma dayStart_36000000 : dayStart 36000000 = 0 := by
  unfold dayStart
  have h : ⌊(36000000 : ℚ) / (1000 * 60 * 60 * 24)⌋ = 0 := by
    norm_num [Int.floor_eq_iff]
  rw [h]; norm_num

/-! ## C1 -/

/-- C1 counterexample: at `now` = 15:00:00.000 with `resetTime = "15:00"`,
the parsed reset instant equals `now`, the code's strict `<` comparison does
not roll it forward, and `windowEnd = now`, refuting `windowEnd > now`. -/
theorem quota_windowEnd_not_always_future :
    ¬ (54000000 < (calculateQuotaStats 54000000 stA).windowEnd) := by
  have hds : dayStart 54000000 = 0 := by
    unfold dayStart
    have h : ⌊(54000000 : ℚ) / (1000 * 60 * 60 * 24)⌋ = 0 := by
      norm_num [Int.floor_eq_iff]
    rw [h]; norm_num
  have hend : (calculateQuotaStats 54000000 stA).windowEnd = 54000000 := by
    simp only [calculateQuotaStats, resetInstant, parseResetTime, stA, hds]
    norm_num
  rw [hend]
  norm_num

/-- C1 (amended): `windowEnd` never lies before `now` (equality occurs
exactly when the parsed reset instant, seconds and milliseconds zeroed,
equals `now`), and whenever the parsed reset instant is strictly before
`now` it is rolled forward by exactly one day. -/
theorem quota_windowEnd_ge_now (now : ℚ) (s : QuotaState) :
    now ≤ (calculateQuotaStats now s).windowEnd ∧
    (parseResetTime s.resetTime now < now →
      (calculateQuotaStats now s).windowEnd =
        parseResetTime s.resetTime now + 1000 * 60 * 60 * 24) := by
  constructor
  · exact now_le_resetInstant now s
  · intro h
    simp only [calculateQuotaStats, resetInstant]
    rw [if_pos h]

/-- C1 witness: `now` = 16:00 with `resetTime = "15:00"` (Scenario B): the
parsed instant 15:00 is strictly before `now`, and `windowEnd` is the next
day's 15:00, i.e. parsed + 1 day. -/
theorem quota_windowEnd_ge_now_witness :
    (calculateQuotaStats 57600000 stA).windowEnd =
      parseResetTime stA.resetTime 57600000 + 1000 * 60 * 60 * 24 := by
  have hds : dayStart 57600000 = 0 := by
    unfold dayStart
    have h : ⌊(57600000 : ℚ) / (1000 * 60 * 60 * 24)⌋ = 0 := by
      norm_num [Int.floor_eq_iff]
    rw [h]; norm_num
  exact (quota_windowEnd_ge_now 57600000 stA).2
    (by simp only [parseResetTime, stA, hds]; norm_num)

/-! ## C5 -/

/-- C5: Scenario A — `resetTime="15:00"`, `now` = same day 10:00:00.000,
`windowLengthHours=5`, `percentUsed=40` gives `windowStart` = 10:00 (= now),
`isWindowActive = true`, `elapsedMs = 0`, `ratePerHour = 0`,
`timeProgressPercent = 0` and `status = critical` (deviation 40 > 10). -/
theorem quota_scenarioA :
    (calculateQuotaStats 36000000 stA).windowStart = 36000000 ∧
    (calculateQuotaStats 36000000 stA).isWindowActive = true ∧
    (calculateQuotaStats 36000000 stA).elapsedMs = 0 ∧
    (calculateQuotaStats 36000000 stA).ratePerHour = 0 ∧
    (calculateQuotaStats 36000000 stA).timeProgressPercent = 0 ∧
    (calculateQuotaStats 36000000 stA).status = QStatus.critical := by
  norm_num [calculateQuotaStats, windowStartQ, resetInstant, parseResetTime, stA,
    dayStart_36000000, qWindowLengthHours, qPercentUsed, jsNumOr, elapsedMsQ,
    elapsedHoursQ, ratePerHourQ, forecastPercentQ, timeProgressPercentQ, statusQ,
    statusBaseQ]

/-! ## C3 -/

lemma statusQ_eq_critical_iff (now : ℚ) (s : QuotaState) :
    statusQ now s = QStatus.critical ↔
      (10 < qPercentUsed s - timeProgressPercentQ now s ∨
       150 < forecastPercentQ now s) := by
  simp only [statusQ, statusBaseQ]
  split_ifs with h1 h2 h3
  · exact iff_of_true rfl (Or.inr h1)
  · exact iff_of_true rfl (Or.inl h2)
  · refine iff_of_false (by decide) ?_
    rintro (h | h)
    · exact h2 h
    · exact h1 h
  · refine iff_of_false (by decide) ?_
    rintro (h | h)
    · exact h2 h
    · exact h1 h

lemma statusQ_eq_warning_iff (now : ℚ) (s : QuotaState) :
    statusQ now s = QStatus.warning ↔
      (0 < qPercentUsed s - timeProgressPercentQ now s ∧
       qPercentUsed s - timeProgressPercentQ now s ≤ 10 ∧
       forecastPercentQ now s ≤ 150) := by
  simp only [statusQ, statusBaseQ]
  split_ifs with h1 h2 h3
  · exact iff_of_false (by decide) (fun h => absurd h1 (not_lt.mpr h.2.2))
  · exact iff_of_false (by decide) (fun h => absurd h2 (not_lt.mpr h.2.1))
  · exact iff_of_true rfl ⟨h3, not_lt.mp h2, not_lt.mp h1⟩
  · exact iff_of_false (by decide) (fun h => h3 h.1)

lemma statusQ_eq_ok_iff (now : ℚ) (s : QuotaState) :
    statusQ now s = QStatus.ok ↔
      (qPercentUsed s - timeProgressPercentQ now s ≤ 0 ∧
       forecastPercentQ now s ≤ 150) := by
  simp only [statusQ, statusBaseQ]
  split_ifs with h1 h2 h3
  · exact iff_of_false (by decide) (fun h => absurd h1 (not_lt.mpr h.2))
  · exact iff_of_false (by decide) (fun h => absurd h2 (not_lt.mpr (by linarith [h.1])))
  · exact iff_of_false (by decide) (fun h => absurd h3 (not_lt.mpr h.1))
  · exact iff_of_true rfl ⟨not_lt.mp h3, not_lt.mp h1⟩

/-- C3: the status of `calculateQuotaStats` is the claimed function of the
deviation `percentUsed - timeProgressPercent` and of `forecastPercent`:
`ok` iff deviation ≤ 0 and forecast ≤ 150; `warning` iff 0 < deviation ≤ 10
and forecast ≤ 150; `critical` iff deviation > 10 or forecast > 150. -/
theorem quota_status_characterization (now : ℚ) (s : QuotaState) :
    ((calculateQuotaStats now s).status = QStatus.ok ↔
      qPercentUsed s - (calculateQuotaStats now s).timeProgressPercent ≤ 0 ∧
      (calculateQuotaStats now s).forecastPercent ≤ 150) ∧
    ((calculateQuotaStats now s).status = QStatus.warning ↔
      (0 < qPercentUsed s - (calculateQuotaStats now s).timeProgressPercent ∧
       qPercentUsed s - (calculateQuotaStats now s).timeProgressPercent ≤ 10 ∧
       (calculateQuotaStats now s).forecastPercent ≤ 150)) ∧
    ((calculateQuotaStats now s).status = QStatus.critical ↔
      (10 < qPercentUsed s - (calculateQuotaStats now s).timeProgressPercent ∨
       150 < (calculateQuotaStats now s).forecastPercent)) := by
  simp only [calculateQuotaStats]
  exact ⟨statusQ_eq_ok_iff now s, statusQ_eq_warning_iff now s,
    statusQ_eq_critical_iff now s⟩

/-! ## C6 -/

/-- C6: `estimatedFinishDate` is `none` whenever `ratePerHour = 0` (and in
particular whenever the elapsed time is zero or negative), and whenever
`ratePerHour > 0` it equals `windowStart + (100 / ratePerHour)` hours. -/
theorem quota_estimatedFinish_spec (now : ℚ) (s : QuotaState) :
    ((calculateQuotaStats now s).ratePerHour = 0 →
      (calculateQuotaStats now s).estimatedFinishDate = none) ∧
    ((calculateQuotaStats now s).elapsedMs ≤ 0 →
      (calculateQuotaStats now s).estimatedFinishDate = none) ∧
    (0 < (calculateQuotaStats now s).ratePerHour →
      (calculateQuotaStats now s).estimatedFinishDate =
        some ((calculateQuotaStats now s).windowStart +
          100 / (calculateQuotaStats now s).ratePerHour * (1000 * 60 * 60))) := by
  refine ⟨?_, ?_, ?_⟩
  · intro h
    simp only [calculateQuotaStats] at h ⊢
    rw [if_neg]
    rw [h]
    exact lt_irrefl 0
  · intro h
    simp only [calculateQuotaStats] at h ⊢
    have hrate : ratePerHourQ now s = 0 := by
      unfold ratePerHourQ
      rw [if_neg]
      unfold elapsedHoursQ
      intro hc
      have : 0 < elapsedMsQ now s := by
        by_contra hn
        push_neg at hn
        have : elapsedMsQ now s / (1000 * 60 * 60) ≤ 0 :=
          div_nonpos_of_nonpos_of_nonneg hn (by norm_num)
        linarith
      linarith
    rw [if_neg]
    rw [hrate]
    exact lt_irrefl 0
  · intro h
    simp only [calculateQuotaStats] at h ⊢
    rw [if_pos h]

/-- C6 witness: `resetTime="15:00"`, `now` = 12:00, window 5 h, 40 % used:
the rate is 20 %/h (positive) and the estimated finish is
`windowStart + 5 h`. -/
theorem quota_estimatedFinish_spec_witness :
    (calculateQuotaStats 43200000 stA).estimatedFinishDate =
      some ((calculateQuotaStats 43200000 stA).windowStart +
        100 / (calculateQuotaStats 43200000 stA).ratePerHour * (1000 * 60 * 60)) := by
  have hds : dayStart 43200000 = 0 := by
    unfold dayStart
    have h : ⌊(43200000 : ℚ) / (1000 * 60 * 60 * 24)⌋ = 0 := by
      norm_num [Int.floor_eq_iff]
    rw [h]; norm_num
  refine (quota_estimatedFinish_spec 43200000 stA).2.2 ?_
  norm_num [calculateQuotaStats, ratePerHourQ, elapsedHoursQ, elapsedMsQ, windowStartQ,
    resetInstant, parseResetTime, stA, hds, qWindowLengthHours, qPercentUsed, jsNumOr]

/-! ## C7 -/

/-- C7: both divisions on elapsed time are guarded — non-positive elapsed
time in the short window gives `ratePerHour = 0`, and non-positive elapsed
days in the weekly window give `currentDailyPace = 0`. -/
theorem elapsed_division_guards (now : ℚ) (s : QuotaState) :
    ((calculateQuotaStats now s).elapsedMs ≤ 0 →
      (calculateQuotaStats now s).ratePerHour = 0) ∧
    (elapsedDaysQ now s ≤ 0 →
      (calculateWeeklyStats now s).currentDailyPace = 0) := by
  constructor
  · intro h
    simp only [calculateQuotaStats] at h ⊢
    unfold ratePerHourQ
    rw [if_neg]
    unfold elapsedHoursQ
    intro hc
    have : 0 < elapsedMsQ now s := by
      by_contra hn
      push_neg at hn
      have : elapsedMsQ now s / (1000 * 60 * 60) ≤ 0 :=
        div_nonpos_of_nonpos_of_nonneg hn (by norm_num)
      linarith
    linarith
  · intro h
    simp only [calculateWeeklyStats]
    unfold currentDailyPaceQ
    rw [if_neg]
    intro hc
    linarith

/-- C7 witness: Scenario-A instant (elapsed exactly 0 in the short window,
and the default weekly reset `now + 7 days` makes the weekly window start at
`now`, so elapsed days are 0): both guarded quotients are 0. -/
theorem elapsed_division_guards_witness :
    (calculateQuotaStats 36000000 stA).ratePerHour = 0 ∧
    (calculateWeeklyStats 36000000 stA).currentDailyPace = 0 := by
  have helap : (calculateQuotaStats 36000000 stA).elapsedMs = 0 := by
    norm_num [calculateQuotaStats, elapsedMsQ, windowStartQ, resetInstant,
      parseResetTime, stA, dayStart_36000000, qWindowLengthHours, jsNumOr]
  have hdays : elapsedDaysQ 36000000 stA = 0 := by
    norm_num [elapsedDaysQ, weeklyElapsedMsQ, weeklyStartDateQ, weeklyResetDateQ, stA]
  exact ⟨(elapsed_division_guards 36000000 stA).1 (le_of_eq helap),
    (elapsed_division_guards 36000000 stA).2 (le_of_eq hdays)⟩

/-! ## C8 -/

/-- C8: `benchmarkPercent` equals `clamp(elapsedDays * (100 / workDays), 0, 100)`
with `elapsedDays = (now - startDate)` in days, and it saturates at 100 once
the elapsed days reach `workDays`. -/
theorem weekly_benchmark_clamped (now : ℚ) (s : QuotaState) :
    (calculateWeeklyStats now s).benchmarkPercent =
      min 100 (max 0 ((now - (calculateWeeklyStats now s).startDate) /
        (1000 * 60 * 60 * 24) * (100 / (calculateWeeklyStats now s).workDays))) ∧
    ((calculateWeeklyStats now s).workDays ≤
        (now - (calculateWeeklyStats now s).startDate) / (1000 * 60 * 60 * 24) →
      (calculateWeeklyStats now s).benchmarkPercent = 100) := by
  have hbm : (calculateWeeklyStats now s).benchmarkPercent =
      min 100 (max 0 (elapsedDaysQ now s * (100 / workDaysQ s))) := rfl
  have hed : (now - (calculateWeeklyStats now s).startDate) / (1000 * 60 * 60 * 24) =
      elapsedDaysQ now s := rfl
  have hwd : (calculateWeeklyStats now s).workDays = workDaysQ s := rfl
  constructor
  · rw [hbm, hed, hwd]
  · intro h
    rw [hed, hwd] at h
    have hwpos := workDaysQ_pos s
    have hkey : (100 : ℚ) ≤ elapsedDaysQ now s * (100 / workDaysQ s) := by
      have h1 : workDaysQ s * (100 / workDaysQ s) = 100 := by field_simp
      have h2 : workDaysQ s * (100 / workDaysQ s) ≤
          elapsedDaysQ now s * (100 / workDaysQ s) :=
        mul_le_mul_of_nonneg_right h (le_of_lt (div_pos (by norm_num) hwpos))
      linarith
    rw [hbm, max_eq_right (by linarith), min_eq_left hkey]

/-- C8 witness: `weeklyWorkDays = 5` and 10 elapsed days (reset date 7 days
after epoch, `now` = 10 days): the benchmark saturates at 100, not 200. -/
theorem weekly_benchmark_clamped_witness :
    (calculateWeeklyStats 864000000
      { resetTime := none, percentUsed := none, windowLengthHours := none,
        weeklyPercentUsed := some 50, weeklyResetDate := some 604800000,
        weeklyWorkDays := some 5 }).benchmarkPercent = 100 := by
  apply (weekly_benchmark_clamped 864000000 _).2
  norm_num [calculateWeeklyStats, workDaysQ, jsNumOr, weeklyStartDateQ, weeklyResetDateQ]

/-! ## C9 -/

/-- C9: `daysRemaining` and `hoursRemaining` are never negative — they are
`max 0 ⌊msRemaining / day⌋` and `max 0 ⌊(msRemaining % day) / hour⌋` (with
the JavaScript truncating `%`), for every `now`, including instants past the
weekly reset date. -/
theorem weekly_remaining_nonneg (now : ℚ) (s : QuotaState) :
    0 ≤ (calculateWeeklyStats now s).daysRemaining ∧
    0 ≤ (calculateWeeklyStats now s).hoursRemaining ∧
    (calculateWeeklyStats now s).daysRemaining =
      max 0 ⌊((calculateWeeklyStats now s).resetDate - now) / (1000 * 60 * 60 * 24)⌋ ∧
    (calculateWeeklyStats now s).hoursRemaining =
      max 0 ⌊jsMod ((calculateWeeklyStats now s).resetDate - now) (1000 * 60 * 60 * 24) /
        (1000 * 60 * 60)⌋ := by
  exact ⟨le_max_left 0 _, le_max_left 0 _, rfl, rfl⟩

/-! ## C10 -/

/-- C10: a negative numeric `percentUsed` is used as-is (only `NaN`-coercing
or empty input falls back to 0).  With `Number(percentUsed) = v < 0` and
positive elapsed time, the rate and forecast are negative, the remaining
percent exceeds 100, no finish date is estimated, and the status is `ok`. -/
theorem quota_negative_percent (now : ℚ) (s : QuotaState) (v : ℚ)
    (hv : s.percentUsed = some v) (hneg : v < 0)
    (helapsed : 0 < (calculateQuotaStats now s).elapsedMs) :
    (calculateQuotaStats now s).ratePerHour < 0 ∧
    (calculateQuotaStats now s).forecastPercent < 0 ∧
    100 < (calculateQuotaStats now s).remainingPercent ∧
    (calculateQuotaStats now s).estimatedFinishDate = none ∧
    (calculateQuotaStats now s).status = QStatus.ok := by
  simp only [calculateQuotaStats] at helapsed ⊢
  have hpu : qPercentUsed s = v := by
    unfold qPercentUsed jsNumOr
    rw [hv]
    exact if_neg (ne_of_lt hneg)
  have heh : 0 < elapsedHoursQ now s := div_pos helapsed (by norm_num)
  have hrneg : ratePerHourQ now s < 0 := by
    unfold ratePerHourQ
    rw [if_pos heh, hpu]
    exact div_neg_of_neg_of_pos hneg heh
  have hwlh : 0 < qWindowLengthHours s := windowLength_pos_of_elapsed_pos now s helapsed
  have hfneg : forecastPercentQ now s < 0 := mul_neg_of_neg_of_pos hrneg hwlh
  refine ⟨hrneg, hfneg, ?_, ?_, ?_⟩
  · rw [hpu]; linarith
  · exact if_neg (not_lt.mpr (le_of_lt hrneg))
  · apply (statusQ_eq_ok_iff now s).mpr
    have htp := timeProgressPercentQ_nonneg now s
    exact ⟨by rw [hpu]; linarith, by linarith⟩

/-- C10 witness: `percentUsed = -50`, `resetTime = "15:00"`, `now` = 12:00,
window 5 h: elapsed 2 h, rate −25 %/h, forecast −125 %, remaining 150 %, no
finish date, status `ok`. -/
theorem quota_negative_percent_witness :
    (calculateQuotaStats 43200000
      { resetTime := some (15, 0), percentUsed := some (-50),
        windowLengthHours := some 5, weeklyPercentUsed := none,
        weeklyResetDate := none, weeklyWorkDays := none }).ratePerHour < 0 ∧
    (calculateQuotaStats 43200000
      { resetTime := some (15, 0), percentUsed := some (-50),
        windowLengthHours := some 5, weeklyPercentUsed := none,
        weeklyResetDate := none, weeklyWorkDays := none }).status = QStatus.ok := by
  have hds : dayStart 43200000 = 0 := by
    unfold dayStart
    have h : ⌊(43200000 : ℚ) / (1000 * 60 * 60 * 24)⌋ = 0 := by
      norm_num [Int.floor_eq_iff]
    rw [h]; norm_num
  have h := quota_negative_percent 43200000
    { resetTime := some (15, 0), percentUsed := some (-50),
      windowLengthHours := some 5, weeklyPercentUsed := none,
      weeklyResetDate := none, weeklyWorkDays := none } (-50) rfl (by norm_num)
    (by norm_num [calculateQuotaStats, elapsedMsQ, windowStartQ, resetInstant,
      parseResetTime, hds, qWindowLengthHours, jsNumOr])
  exact ⟨h.1, h.2.2.2.2⟩

/-! ## C2 -/

/-- C2: the monthly cycle calculator (modelled from the spec, §4.3) adds one
calendar month: for `lastPaymentDate` = January 31 of any year `y`, the next
billing date is February of the same year, on day 29 in leap years and 28
otherwise — the last valid day of February, as every valid February date has
a day number at most that value. -/
theorem monthly_jan31_lastDayOfFeb (y : ℤ) :
    monthlyNextBillingDate ⟨y, 1, 31⟩ =
      ⟨y, 2, if isLeapYear y then 29 else 28⟩ ∧
    (monthlyNextBillingDate ⟨y, 1, 31⟩).validDate ∧
    (∀ d : ℕ, (SimpleDate.mk y 2 d).validDate →
      d ≤ (monthlyNextBillingDate ⟨y, 1, 31⟩).d) := by
  have hd : daysInMonth y 2 = if isLeapYear y then 29 else 28 := by
    unfold daysInMonth
    norm_num
  have h31 : daysInMonth y 2 ≤ 31 := by
    rw [hd]; split <;> norm_num
  have hm : monthlyNextBillingDate ⟨y, 1, 31⟩ = ⟨y, 2, daysInMonth y 2⟩ := by
    simp only [monthlyNextBillingDate]
    norm_num [min_eq_right h31]
  refine ⟨by rw [hm, hd], ?_, ?_⟩
  · rw [hm]
    unfold SimpleDate.validDate
    refine ⟨by norm_num, by norm_num, ?_, le_refl _⟩
    rw [hd]; split <;> norm_num
  · intro d hvd
    rw [hm]
    exact hvd.2.2.2

/-- C2 witness: January 31, 2024 (a leap year) maps to February 29, 2024,
which is a valid date. -/
theorem monthly_jan31_lastDayOfFeb_witness :
    monthlyNextBillingDate ⟨2024, 1, 31⟩ = ⟨2024, 2, 29⟩ ∧
    (SimpleDate.mk 2024 2 29).validDate ∧
    29 ≤ (monthlyNextBillingDate ⟨2024, 1, 31⟩).d := by
  have h := monthly_jan31_lastDayOfFeb 2024
  refine ⟨h.1.trans (by norm_num [isLeapYear]), by decide, h.2.2 29 (by decide)⟩

/-! ## C4 -/

/-- C4 counterexample: a fractional numeric `weeklyWorkDays` (here 3.5) is
clamped but not rounded, so the `workDays` field is not an integer. -/
theorem weekly_workDays_not_integer :
    ¬ ∃ n : ℤ, (n : ℚ) = (calculateWeeklyStats 0
      { resetTime := none, percentUsed := none, windowLengthHours := none,
        weeklyPercentUsed := none, weeklyResetDate := none,
        weeklyWorkDays := some (7 / 2) }).workDays := by
  have hw : (calculateWeeklyStats 0
      { resetTime := none, percentUsed := none, windowLengthHours := none,
        weeklyPercentUsed := none, weeklyResetDate := none,
        weeklyWorkDays := some (7 / 2) }).workDays = 7 / 2 := by
    norm_num [calculateWeeklyStats, workDaysQ, jsNumOr]
  rintro ⟨n, hn⟩
  rw [hw] at hn
  have h2 : ((2 * n : ℤ) : ℚ) = 7 := by push_cast; linarith
  have h3 : (2 * n : ℤ) = 7 := by exact_mod_cast h2
  omega

/-- C4 (amended): `workDays` always lies in `[1, 7]` (clamped, but not
rounded: fractional numeric inputs are kept as-is), equals 5 when the input
is non-numeric or empty, and `maxSafeDailyPace = 100 / workDays` is well
defined and positive (no division by zero). -/
theorem weekly_workDays_bounds (now : ℚ) (s : QuotaState) :
    1 ≤ (calculateWeeklyStats now s).workDays ∧
    (calculateWeeklyStats now s).workDays ≤ 7 ∧
    ((s.weeklyWorkDays = none ∨ s.weeklyWorkDays = some 0) →
      (calculateWeeklyStats now s).workDays = 5) ∧
    (calculateWeeklyStats now s).maxSafeDailyPace =
      100 / (calculateWeeklyStats now s).workDays ∧
    0 < (calculateWeeklyStats now s).maxSafeDailyPace := by
  simp only [calculateWeeklyStats]
  refine ⟨one_le_workDaysQ s, workDaysQ_le_seven s, ?_, trivial,
    div_pos (by norm_num) (workDaysQ_pos s)⟩
  rintro (h | h) <;> unfold workDaysQ jsNumOr <;> rw [h] <;> norm_num

/-- C4 witness: with no numeric `weeklyWorkDays` input the default 5 is
used. -/
theorem weekly_workDays_bounds_witness :
    (calculateWeeklyStats 0 stA).workDays = 5 :=
  (weekly_workDays_bounds 0 stA).2.2.1 (Or.inl rfl)
